import Mathlib

/-!
Verification of the actor-based stock-statistics pipeline
(`stock-trading-cli-with-async-streams`).

The development shallowly embeds the parts of the Rust source that the
claims are about:

* `src/constants.rs` — the process-wide configuration constants;
* `src/async_signals.rs` — the pure signal calculations (`MinPrice`,
  `MaxPrice`, `PriceDifference`, `WindowedSMA`); `f64` arithmetic is
  embedded as exact rational arithmetic over `ℚ`;
* `src/my_async_actors.rs` — the row construction of
  `UniversalActor::handle_symbols_closes_msg`, the fetch fan-out of
  `UniversalActor::handle_quote_requests_msg` (the external data source is
  an explicit function parameter), the `WriterActor` (its file is a list of
  written lines, its mailbox a list of messages consumed in FIFO order),
  and the `CollectionActor` (buffer, in-progress batch, chunk counter);
* `src/handlers.rs` — the `get_tail` web handler.

Messages delivered to an actor are modelled as a Lean list processed by a
left fold of the actor's `handle` function: the Rust actors drain a
single-consumer mailbox in arrival order, so the fold is exactly the
serialized per-actor semantics.
-/

namespace StockTrading

/-! ## Constants (`src/constants.rs`) -/

/-- Source constant `CHUNK_SIZE` (constants.rs line 4). -/
def CHUNK_SIZE : Nat := 5

/-- Source constant `WINDOW_SIZE` (constants.rs line 8). -/
def WINDOW_SIZE : Nat := 30

/-- Source constant `TAIL_BUFFER_SIZE` (constants.rs line 19): the tail
buffer's capacity in number of batches. -/
def TAIL_BUFFER_SIZE : Nat := 10

/-- Source constant `CSV_HEADER` (constants.rs line 11). -/
def CSV_HEADER : String := "period start,symbol,price,change %,min,max,30d avg"

/-- The number of chunks produced by `symbols.chunks(CHUNK_SIZE)` in
`logic.rs` for a symbol universe of size `n`: the ceiling of
`n / CHUNK_SIZE` (Rust's slice `chunks` yields `⌈len/size⌉` chunks). -/
def expectedChunks (n : Nat) : Nat := (n + CHUNK_SIZE - 1) / CHUNK_SIZE

/-! ## Signal calculations (`src/async_signals.rs`)

`f64` values are embedded as exact rationals.  The Rust folds for the
minimum and the maximum start from `f64::MAX` and `f64::MIN`; those two
floats are exact rationals, reproduced below. -/

/-- The exact rational value of `f64::MAX`, the start of the fold in
`MinPrice::calculate`. -/
def f64MAX : ℚ := (2 ^ 53 - 1) * 2 ^ 971

/-- The exact rational value of `f64::MIN`, the start of the fold in
`MaxPrice::calculate`. -/
def f64MIN : ℚ := -f64MAX

/-- Embedding of `MinPrice::calculate` (async_signals.rs lines 47-57):
`None` on the empty series, otherwise the left fold of `min` over the
series starting from `f64::MAX`. -/
def minPriceCalculate (series : List ℚ) : Option ℚ :=
  if series.isEmpty then none
  else some (series.foldl (fun min_elt curr_elt => min min_elt curr_elt) f64MAX)

/-- Embedding of `MaxPrice::calculate` (async_signals.rs lines 67-77):
`None` on the empty series, otherwise the left fold of `max` over the
series starting from `f64::MIN`. -/
def maxPriceCalculate (series : List ℚ) : Option ℚ :=
  if series.isEmpty then none
  else some (series.foldl (fun max_elt curr_elt => max max_elt curr_elt) f64MIN)

/-- Embedding of `PriceDifference::calculate` (async_signals.rs lines
94-108): `None` on the empty series; otherwise the pair of the absolute
difference `last - first` and the relative difference, whose divisor is
`1.0` when the first element is exactly zero, and the first element
otherwise (`last` is `series.last().unwrap_or(first)`). -/
def priceDifferenceCalculate : List ℚ → Option (ℚ × ℚ)
  | [] => none
  | first :: rest =>
      let lst := ((first :: rest).getLast?).getD first
      let abs_diff := lst - first
      let divisor := if first = 0 then 1 else first
      some (abs_diff, abs_diff / divisor)

/-- Embedding of Rust's slice `windows(n)` for `n ≥ 1`: the contiguous
sub-slices of length `n`, left to right; empty when the slice is shorter
than `n`.  (Rust panics at `n = 0`; every call site below guards with
`n > 1`.) -/
def windows (n : Nat) : List ℚ → List (List ℚ)
  | [] => []
  | a :: l => if (a :: l).length < n then [] else (a :: l).take n :: windows n l

/-- Embedding of `WindowedSMA::calculate` (async_signals.rs lines
124-135): `None` when the series is empty or the window size is `≤ 1`;
otherwise the list of the averages of all windows of size `window_size`
(empty when the series is shorter than the window). -/
def windowedSMACalculate (window_size : Nat) (series : List ℚ) : Option (List ℚ) :=
  if ¬series.isEmpty ∧ window_size > 1 then
    some ((windows window_size series).map (fun w => w.sum / (w.length : ℚ)))
  else none

/-! ## Theorems for the signal claims -/

/-- Claim C8: `WindowedSMA::calculate` on the series
`[2.0, 4.5, 5.3, 6.5, 4.7]` returns, for window size 3, exactly the
averages `[59/15, 163/30, 11/2]` — each within `10⁻⁶` of the quoted
seed values `3.933333`, `5.433333`, `5.5` — for window size 5 exactly
`[4.6]`, and for window size 10 (larger than the series) the empty
result wrapped in `some`, not an error. -/
theorem windowedSMA_seed_values :
    windowedSMACalculate 3 [2.0, 4.5, 5.3, 6.5, 4.7] = some [59/15, 163/30, 11/2]
      ∧ |(59/15 : ℚ) - 3.933333| < 1/1000000
      ∧ |(163/30 : ℚ) - 5.433333| < 1/1000000
      ∧ (11/2 : ℚ) = 5.5
      ∧ windowedSMACalculate 5 [2.0, 4.5, 5.3, 6.5, 4.7] = some [4.6]
      ∧ windowedSMACalculate 10 [2.0, 4.5, 5.3, 6.5, 4.7] = some [] := by
  refine ⟨by norm_num [windowedSMACalculate, windows], ?_, ?_,
    by norm_num, by norm_num [windowedSMACalculate, windows],
    by norm_num [windowedSMACalculate, windows]⟩ <;>
  · rw [abs_sub_lt_iff]
    constructor <;> norm_num

/-- Claim C9: on every non-empty series `first :: rest`,
`PriceDifference::calculate` returns `some (last - first, (last - first) / d)`
where `d = 1` when the first element is exactly `0` and `d = first`
otherwise, so `d` is never zero; the series `[1.0, 0.0]` yields the
differences `(-1, -1)` with minimum `0` and maximum `1`, and the empty
series yields `none`. -/
theorem priceDifference_spec (first : ℚ) (rest : List ℚ) :
    (if first = 0 then (1 : ℚ) else first) ≠ 0
      ∧ priceDifferenceCalculate (first :: rest)
          = some (rest.getLastD first - first,
              (rest.getLastD first - first) / (if first = 0 then 1 else first))
      ∧ priceDifferenceCalculate [1.0, 0.0] = some (-1, -1)
      ∧ minPriceCalculate [1.0, 0.0] = some 0
      ∧ maxPriceCalculate [1.0, 0.0] = some 1
      ∧ priceDifferenceCalculate ([] : List ℚ) = none := by
  refine ⟨?_, ?_, by norm_num [priceDifferenceCalculate],
    by norm_num [minPriceCalculate, f64MAX, min_def],
    by norm_num [maxPriceCalculate, f64MIN, f64MAX, max_def], rfl⟩
  · by_cases h : first = 0 <;> simp [h]
  · cases rest with
    | nil => simp [priceDifferenceCalculate]
    | cons b t => simp [priceDifferenceCalculate, List.getLast?_cons_cons]

/-- Claim C9 witness: the general statement instantiated at the series
`[1.0, 0.0]` from the seed values. -/
theorem priceDifference_spec_witness :
    (if (1 : ℚ) = 0 then (1 : ℚ) else 1) ≠ 0
      ∧ priceDifferenceCalculate ((1 : ℚ) :: [0])
          = some (List.getLastD [0] 1 - 1,
              (List.getLastD [0] 1 - 1) / (if (1 : ℚ) = 0 then 1 else 1))
      ∧ priceDifferenceCalculate [1.0, 0.0] = some (-1, -1)
      ∧ minPriceCalculate [1.0, 0.0] = some 0
      ∧ maxPriceCalculate [1.0, 0.0] = some 1
      ∧ priceDifferenceCalculate ([] : List ℚ) = none :=
  priceDifference_spec 1 [0]

/-! ## Rows and the processing stage (`src/my_async_actors.rs`) -/

/-- Embedding of `PerformanceIndicatorsRow` (my_async_actors.rs lines
499-506). -/
structure PerformanceIndicatorsRow where
  symbol : String
  last_price : ℚ
  pct_change : ℚ
  period_min : ℚ
  period_max : ℚ
  sma : ℚ
deriving DecidableEq, Repr

/-- Embedding of the per-symbol body of
`UniversalActor::handle_symbols_closes_msg` (my_async_actors.rs lines
335-380): for a non-empty series the row of performance indicators built
from the signal calculations (`pct_change` is scaled by 100, each signal
is unwrapped with its source default, and `sma` is the last windowed
average or `0.0` when there is none); `none` for an empty series, which
produces no row. -/
def processSymbol (symbol : String) (closes : List ℚ) : Option PerformanceIndicatorsRow :=
  if closes.isEmpty then none
  else
    let last_price := (closes.getLast?).getD 0
    let pct_change := ((priceDifferenceCalculate closes).getD (0, 0)).2
    let pct_change := pct_change * 100
    let period_min := (minPriceCalculate closes).getD 0
    let period_max := (maxPriceCalculate closes).getD 0
    let sma_list := (windowedSMACalculate WINDOW_SIZE closes).getD []
    let sma := (sma_list.getLast?).getD 0
    some { symbol := symbol, last_price := last_price, pct_change := pct_change,
           period_min := period_min, period_max := period_max, sma := sma }

/-- The closing prices a symbol contributes after the fetch step of
`UniversalActor::handle_quote_requests_msg` (my_async_actors.rs lines
285-300): the fetched series on success, and the empty series when the
fetch returned an error (the error is logged and the symbol skipped).
The external data source is the function argument `fetch`. -/
def fetchedCloses (fetch : String → Except String (List ℚ)) (symbol : String) : List ℚ :=
  match fetch symbol with
  | .ok closes => closes
  | .error _ => []

/-- Embedding of the map-building loop of
`UniversalActor::handle_quote_requests_msg` (my_async_actors.rs lines
283-300): the `symbol → closes` association created for a chunk of
symbols (faithful to the Rust `HashMap` when the chunk has no duplicate
symbols). -/
def handle_quote_requests_closes (fetch : String → Except String (List ℚ))
    (symbols : List String) : List (String × List ℚ) :=
  symbols.map (fun s => (s, fetchedCloses fetch s))

/-- Embedding of the row-collection loop of
`UniversalActor::handle_symbols_closes_msg` (my_async_actors.rs lines
333-380): one row per entry with a non-empty series, in iteration
order; entries with an empty series are skipped. -/
def handle_symbols_closes_rows (symbols_closes : List (String × List ℚ)) :
    List PerformanceIndicatorsRow :=
  symbols_closes.filterMap (fun sc => processSymbol sc.1 sc.2)

/-- Helper: the symbols of the produced rows are exactly the first
components of the entries whose series is non-empty. -/
theorem handle_symbols_closes_rows_symbols (scs : List (String × List ℚ)) :
    (handle_symbols_closes_rows scs).map PerformanceIndicatorsRow.symbol
      = (scs.filter (fun sc => !sc.2.isEmpty)).map Prod.fst := by
  induction scs with
  | nil => rfl
  | cons sc t ih =>
      by_cases h : sc.2 = [] <;>
        simp only [handle_symbols_closes_rows, List.filterMap_cons, List.filter_cons] at ih ⊢ <;>
        simp [processSymbol, h] at ih ⊢ <;>
        exact ih

/-- Claim C7: for every chunk of (distinct) symbols, a per-symbol fetch
failure is isolated: a failing symbol contributes an empty series, an
empty series produces no row, and the rows produced by the processing
stage are exactly one row per symbol whose effective series is
non-empty, in order — one symbol's failure never removes another
symbol's row. -/
theorem per_symbol_isolation (fetch : String → Except String (List ℚ))
    (symbols : List String) (hnd : symbols.Nodup) :
    ((handle_symbols_closes_rows (handle_quote_requests_closes fetch symbols)).map
        PerformanceIndicatorsRow.symbol)
      = symbols.filter (fun s => !(fetchedCloses fetch s).isEmpty)
      ∧ ∀ s e, fetch s = .error e → fetchedCloses fetch s = [] := by
  constructor
  · rw [handle_symbols_closes_rows_symbols, handle_quote_requests_closes,
      List.filter_map, List.map_map]
    simp [Function.comp_def]
  · intro s e he
    simp [fetchedCloses, he]

/-- A concrete data source for the C7 witness: the fetch fails for the
symbol `"XYZ"` and succeeds with the one-element series `[1]` otherwise. -/
def sampleFetch : String → Except String (List ℚ) :=
  fun s => if s = "XYZ" then .error "API error" else .ok [1]

/-- Claim C7 witness: for the chunk `["AAPL", "XYZ", "MSFT"]` with the
fetch failing exactly on `"XYZ"`, the rows are exactly for `"AAPL"` and
`"MSFT"`. -/
theorem per_symbol_isolation_witness :
    (["AAPL", "XYZ", "MSFT"] : List String).Nodup
      ∧ (((handle_symbols_closes_rows
            (handle_quote_requests_closes sampleFetch ["AAPL", "XYZ", "MSFT"])).map
          PerformanceIndicatorsRow.symbol)
        = ["AAPL", "XYZ", "MSFT"].filter (fun s => !(fetchedCloses sampleFetch s).isEmpty)
        ∧ ∀ s e, sampleFetch s = .error e → fetchedCloses sampleFetch s = [])
      ∧ ((handle_symbols_closes_rows
            (handle_quote_requests_closes sampleFetch ["AAPL", "XYZ", "MSFT"])).map
          PerformanceIndicatorsRow.symbol)
        = ["AAPL", "MSFT"] := by
  refine ⟨by decide, per_symbol_isolation sampleFetch ["AAPL", "XYZ", "MSFT"] (by decide), ?_⟩
  rw [(per_symbol_isolation sampleFetch ["AAPL", "XYZ", "MSFT"] (by decide)).1]
  simp [sampleFetch, fetchedCloses]

/-! ## CSV formatting

`writeln!(file, "{},{},${:.2},{:.2}%,${:.2},${:.2},${:.2}", ...)` in
`WriterActor::handle` renders every numeric field with two decimal
places.  `fmt2` models Rust's `{:.2}` on the embedded rationals:
round-half-to-even at the second decimal, always two fractional
digits. -/

/-- Rounding to the nearest integer, ties to even, as Rust's float
formatting with a fixed precision does. -/
def roundHalfEven (q : ℚ) : ℤ :=
  let f := ⌊q⌋
  let r := q - (f : ℚ)
  if r < 1/2 then f
  else if 1/2 < r then f + 1
  else if f % 2 = 0 then f else f + 1

/-- Model of Rust's `{:.2}` formatting of a (non-NaN, finite) float:
the sign, the integer part, a dot, and exactly two fractional digits. -/
def fmt2 (q : ℚ) : String :=
  let n := (roundHalfEven (|q| * 100)).toNat
  (if q < 0 then "-" else "") ++ toString (n / 100) ++ "."
    ++ (if n % 100 < 10 then "0" else "") ++ toString (n % 100)

/-- One CSV line of `WriterActor::handle` (my_async_actors.rs lines
603-613): `from,symbol,$last,pct%,$min,$max,$sma`, numbers with two
decimals. -/
def formatRowLine (from_str : String) (row : PerformanceIndicatorsRow) : String :=
  from_str ++ "," ++ row.symbol ++ ",$" ++ fmt2 row.last_price ++ ","
    ++ fmt2 row.pct_change ++ "%,$" ++ fmt2 row.period_min ++ ",$"
    ++ fmt2 row.period_max ++ ",$" ++ fmt2 row.sma

/-- Helper: the sma field of a short series renders as a true zero. -/
theorem fmt2_zero : fmt2 0 = "0.00" := by
  have h : roundHalfEven 0 = 0 := by norm_num [roundHalfEven]
  simp [fmt2, h]
  decide

/-- Helper: a series shorter than the window yields no window at all. -/
theorem windows_eq_nil (n : Nat) (l : List ℚ) (h : l.length < n) : windows n l = [] := by
  cases l with
  | nil => rfl
  | cons a t =>
      have h2 : t.length + 1 < n := by simpa using h
      simp [windows, h2]

/-- Claim C10: for every symbol whose series is non-empty but shorter
than `WINDOW_SIZE = 30`, the statistics stage still produces a row, and
the row's `sma` field is exactly `0`: the undefined moving average is
substituted by the literal `0.0`, and the CSV line is the same line as
for a true zero average (its sma field renders as `$0.00`), rather than
the row or the field being omitted. -/
theorem short_series_sma_zero (symbol from_str : String) (closes : List ℚ)
    (h1 : closes ≠ []) (h2 : closes.length < WINDOW_SIZE) :
    ∃ row, processSymbol symbol closes = some row
      ∧ row.sma = 0
      ∧ fmt2 row.sma = "0.00"
      ∧ formatRowLine from_str row = formatRowLine from_str { row with sma := 0 } := by
  have hW : windowedSMACalculate WINDOW_SIZE closes = some [] := by
    unfold windowedSMACalculate
    rw [windows_eq_nil WINDOW_SIZE closes h2]
    simp [h1, WINDOW_SIZE]
  refine ⟨{ symbol := symbol,
            last_price := (closes.getLast?).getD 0,
            pct_change := ((priceDifferenceCalculate closes).getD (0, 0)).2 * 100,
            period_min := (minPriceCalculate closes).getD 0,
            period_max := (maxPriceCalculate closes).getD 0,
            sma := 0 }, ?_, rfl, fmt2_zero, rfl⟩
  simp [processSymbol, h1, hW]

/-- Claim C10 witness: the symbol `"AAPL"` with the one-element series
`[1]`, which is shorter than the 30-element window. -/
theorem short_series_sma_zero_witness :
    (([1] : List ℚ) ≠ [] ∧ ([1] : List ℚ).length < WINDOW_SIZE)
      ∧ ∃ row, processSymbol "AAPL" [1] = some row
          ∧ row.sma = 0
          ∧ fmt2 row.sma = "0.00"
          ∧ formatRowLine "2024-01-01T00:00:00Z" row
              = formatRowLine "2024-01-01T00:00:00Z" { row with sma := 0 } :=
  ⟨⟨by simp, by norm_num [WINDOW_SIZE]⟩,
    short_series_sma_zero "AAPL" "2024-01-01T00:00:00Z" [1] (by simp)
      (by norm_num [WINDOW_SIZE])⟩

/-! ## The writer actor (`src/my_async_actors.rs` lines 529-680)

The state the claims observe is the output file, modelled as the list of
written lines.  `start` creates the file with the header line;
`handle` appends one formatted line per row of the message and flushes;
`run` drains the mailbox in FIFO arrival order, which the fold over the
arrival list embeds. -/

/-- Embedding of `PerformanceIndicatorsRowsMsg` (my_async_actors.rs
lines 518-522); the `from` field is `from_str` (`from` is a Lean
keyword) and the `Instant` field `start` is an abstract tick count. -/
structure PerformanceIndicatorsRowsMsg where
  from_str : String
  rows : List PerformanceIndicatorsRow
  start : Nat
deriving DecidableEq, Repr

/-- The lines `WriterActor::handle` writes for one message: one
formatted CSV line per row, in row order. -/
def renderMsg (msg : PerformanceIndicatorsRowsMsg) : List String :=
  msg.rows.map (formatRowLine msg.from_str)

/-- The `WriterActor`, reduced to the observable state the claims are
about: the contents of its output file as a list of lines. -/
structure WriterActor where
  file : List String
deriving DecidableEq, Repr

/-- Embedding of `WriterActor::start` (my_async_actors.rs lines
553-565): create the file and write the fixed header line. -/
def WriterActor.start : WriterActor :=
  { file := [CSV_HEADER] }

/-- Embedding of `WriterActor::handle` (my_async_actors.rs lines
596-625): append one formatted line per row, then flush. -/
def WriterActor.handle (self : WriterActor) (msg : PerformanceIndicatorsRowsMsg) :
    WriterActor :=
  { self with file := self.file ++ renderMsg msg }

/-- Embedding of `WriterActor::run` (my_async_actors.rs lines 570-578):
drain the mailbox in FIFO arrival order, handling each message. -/
def WriterActor.run (self : WriterActor) (mailbox : List PerformanceIndicatorsRowsMsg) :
    WriterActor :=
  mailbox.foldl WriterActor.handle self

/-- Helper: after draining a mailbox the file holds the prior contents
followed by the lines of every message, in mailbox order. -/
theorem writer_run_file (mailbox : List PerformanceIndicatorsRowsMsg) (self : WriterActor) :
    (self.run mailbox).file = self.file ++ (mailbox.map renderMsg).flatten := by
  induction mailbox generalizing self with
  | nil => simp [WriterActor.run]
  | cons m t ih =>
      simp only [WriterActor.run, List.foldl_cons] at ih ⊢
      rw [ih]
      simp [WriterActor.handle]

/-- Claim C6: for every two chunk-completion messages enqueued to the
writer actor in order `A` then `B` — whatever else precedes, separates
or follows them in the mailbox — the output file contains all of `A`'s
lines (one per row) before any of `B`'s lines, because the single
writer actor drains its mailbox strictly in FIFO arrival order,
regardless of which chunk's fetch finished first in real time. -/
theorem writer_fifo_order (pre mid post : List PerformanceIndicatorsRowsMsg)
    (A B : PerformanceIndicatorsRowsMsg) :
    ∃ p m s : List String,
      (WriterActor.start.run (pre ++ A :: (mid ++ B :: post))).file
        = p ++ (renderMsg A ++ (m ++ (renderMsg B ++ s))) := by
  refine ⟨[CSV_HEADER] ++ (pre.map renderMsg).flatten, (mid.map renderMsg).flatten,
    (post.map renderMsg).flatten, ?_⟩
  rw [writer_run_file]
  simp [WriterActor.start]

/-- A first sample chunk-completion message for the writer witness. -/
def msgA : PerformanceIndicatorsRowsMsg :=
  { from_str := "2024-01-01T00:00:00Z",
    rows := [{ symbol := "A", last_price := 1, pct_change := 0,
               period_min := 1, period_max := 1, sma := 0 }],
    start := 0 }

/-- A second sample chunk-completion message for the writer witness. -/
def msgB : PerformanceIndicatorsRowsMsg :=
  { from_str := "2024-01-01T00:00:00Z",
    rows := [{ symbol := "B", last_price := 2, pct_change := 0,
               period_min := 2, period_max := 2, sma := 0 }],
    start := 0 }

/-- Claim C6 witness: the FIFO ordering instantiated at a two-message
mailbox `[msgA, msgB]`. -/
theorem writer_fifo_order_witness :
    ∃ p m s : List String,
      (WriterActor.start.run ([] ++ msgA :: ([] ++ msgB :: []))).file
        = p ++ (renderMsg msgA ++ (m ++ (renderMsg msgB ++ s))) :=
  writer_fifo_order [] [] [] msgA msgB

/-! ## The collection actor (`src/my_async_actors.rs` lines 695-923)

State (lines 727-746): the buffer of completed batches (created empty
with capacity `TAIL_BUFFER_SIZE`), the in-progress batch `batch`
(created empty), and the chunk counter `cnt` (created `0`).  The buffer
is a growable vector: `Vec::push` appends at the back and nothing ever
removes an element. -/

/-- Embedding of `Batch` (types.rs line 16): one iteration's rows. -/
abbrev Batch := List PerformanceIndicatorsRow

/-- Embedding of `TailResponse` (types.rs line 20): a sequence of
batches, front = oldest. -/
abbrev TailResponse := List Batch

/-- Embedding of the `CollectionActor` state (my_async_actors.rs lines
727-732). -/
structure CollectionActor where
  buffer : TailResponse
  batch : Batch
  cnt : Nat
deriving DecidableEq, Repr

/-- Embedding of `CollectionActor::new` (my_async_actors.rs lines
738-746): empty buffer, empty batch, counter zero. -/
def CollectionActor.new : CollectionActor :=
  { buffer := [], batch := [], cnt := 0 }

/-- Embedding of `CollectionActor::handle_perf_ind_chunk`
(my_async_actors.rs lines 814-835): increment the counter, extend the
in-progress batch with the chunk's rows, and — when the counter equals
the hard-coded literal `2` — push a clone of the batch onto the back of
the buffer and reset the counter (the batch itself is not cleared). -/
def CollectionActor.handle_perf_ind_chunk (self : CollectionActor)
    (msg : PerformanceIndicatorsRowsMsg) : CollectionActor :=
  let stepped := { self with cnt := self.cnt + 1, batch := self.batch ++ msg.rows }
  if stepped.cnt = 2 then
    { stepped with buffer := stepped.buffer ++ [stepped.batch], cnt := 0 }
  else stepped

/-- Embedding of `CollectionActor::handle_tail_request`
(my_async_actors.rs lines 847-868): reply with
`self.buffer.iter().take(n)` — the first `n` buffer entries, counted
from the front (the oldest ones); the state is unchanged. -/
def CollectionActor.handle_tail_request (self : CollectionActor) (n : Nat) : TailResponse :=
  self.buffer.take n

/-- The collector state after its FIFO mailbox delivered the given
chunk messages, starting from `CollectionActor::new`. -/
def processChunks (msgs : List PerformanceIndicatorsRowsMsg) : CollectionActor :=
  msgs.foldl CollectionActor.handle_perf_ind_chunk CollectionActor.new

/-- A sample row (symbol `"A"`) for concrete collector evaluations. -/
def rowA : PerformanceIndicatorsRow :=
  { symbol := "A", last_price := 1, pct_change := 0,
    period_min := 1, period_max := 1, sma := 0 }

/-- A second sample row (symbol `"B"`). -/
def rowB : PerformanceIndicatorsRow :=
  { symbol := "B", last_price := 2, pct_change := 0,
    period_min := 2, period_max := 2, sma := 0 }

/-- A chunk-arrival message carrying the given rows. -/
def chunkMsg (rows : List PerformanceIndicatorsRow) : PerformanceIndicatorsRowsMsg :=
  { from_str := "2024-01-01T00:00:00Z", rows := rows, start := 0 }

set_option maxRecDepth 8192 in
/-- Claim C1 (evaluation at a failing input): for the S&P 500 symbol
universe of 505 symbols and `CHUNK_SIZE = 5` the expected chunk count
is 101, yet the collector pushes a batch after exactly 2 chunk-arrival
messages (the hard-coded counter threshold), does not reset the
in-progress batch on the push, leaves that partial 2-chunk batch
observable through a tail-request, and after 101 chunk arrivals has
performed 50 pushes rather than the single push the claim implies. -/
theorem collector_pushes_at_hardcoded_two :
    expectedChunks 505 = 101
      ∧ (processChunks [chunkMsg [rowA], chunkMsg [rowA]]).buffer = [[rowA, rowA]]
      ∧ (processChunks [chunkMsg [rowA], chunkMsg [rowA]]).batch = [rowA, rowA]
      ∧ (processChunks [chunkMsg [rowA], chunkMsg [rowA]]).cnt = 0
      ∧ (processChunks [chunkMsg [rowA], chunkMsg [rowA]]).handle_tail_request 1
          = [[rowA, rowA]]
      ∧ (processChunks [chunkMsg [rowA]]).buffer = []
      ∧ (processChunks (List.replicate 101 (chunkMsg [rowA]))).buffer.length = 50 :=
  ⟨rfl, rfl, rfl, rfl, rfl, rfl, rfl⟩

/-- The collector state after eleven completed cycles (22 chunk
arrivals at the hard-coded threshold of 2 chunks per push). -/
def elevenCompletions : CollectionActor :=
  processChunks (List.replicate 22 (chunkMsg [rowA]))

/-- Claim C2 (evaluation at a failing input): with capacity
`TAIL_BUFFER_SIZE = 10`, after 11 batch completions the buffer holds 11
batches — nothing is ever evicted — and a tail-request for 10 returns
the 10 oldest batches: its first element is the very first (oldest)
batch, and none of its entries is the newest batch (every returned
batch has at most 20 rows while the newest has 22). -/
theorem ring_capacity_violated :
    TAIL_BUFFER_SIZE = 10
      ∧ elevenCompletions.buffer.length = 11
      ∧ elevenCompletions.handle_tail_request TAIL_BUFFER_SIZE
          = elevenCompletions.buffer.take 10
      ∧ (elevenCompletions.handle_tail_request TAIL_BUFFER_SIZE).length = 10
      ∧ (elevenCompletions.handle_tail_request TAIL_BUFFER_SIZE).head?
          = some [rowA, rowA]
      ∧ elevenCompletions.buffer.head? = some [rowA, rowA]
      ∧ ((elevenCompletions.handle_tail_request TAIL_BUFFER_SIZE).map List.length)
          = [2, 4, 6, 8, 10, 12, 14, 16, 18, 20]
      ∧ (elevenCompletions.buffer.getLastD []).length = 22 :=
  ⟨rfl, rfl, rfl, rfl, rfl, rfl, rfl, rfl⟩

/-- The collector state after two completed batches: the first holds
`rowA`, the second — because the batch is never cleared — `rowA` and
`rowB`. -/
def twoCompletions : CollectionActor :=
  processChunks [chunkMsg [rowA], chunkMsg [], chunkMsg [rowB], chunkMsg []]

/-- Claim C3 (evaluation at a failing input): with two completed batches
in the buffer, a tail-request for `n = 1` returns the oldest batch, not
the most recently completed one; the true part — the empty reply before
any completion — also holds. -/
theorem tail_request_returns_oldest :
    twoCompletions.buffer = [[rowA], [rowA, rowB]]
      ∧ twoCompletions.handle_tail_request 1 = [[rowA]]
      ∧ ([[rowA]] : TailResponse) ≠ [[rowA, rowB]]
      ∧ CollectionActor.new.handle_tail_request 5 = [] := by
  refine ⟨rfl, rfl, ?_, rfl⟩
  simp

/-! ## The `get_tail` web handler (`src/handlers.rs` lines 66-133) -/

/-- Embedding of `get_tail` (handlers.rs lines 66-133): clamp the
requested `n` to `TAIL_BUFFER_SIZE`, ask the collection actor for the
tail, and answer with HTTP status 200 both when the reply arrives and
when the reply channel yields nothing; the clamping is silent. -/
def get_tail (st : CollectionActor) (n : Nat) (reply_received : Bool) : Nat × TailResponse :=
  let m := min n TAIL_BUFFER_SIZE
  if reply_received then (200, st.handle_tail_request m) else (200, [])

/-- Claim C4: every tail-request whose count `n` exceeds the ring
capacity succeeds with HTTP status 200 and at most `TAIL_BUFFER_SIZE`
batches: `n` is silently clamped to the capacity, and when the reply
arrives it is exactly the collector's answer for the clamped count. -/
theorem get_tail_clamps (st : CollectionActor) (n : Nat) (r : Bool)
    (h : TAIL_BUFFER_SIZE < n) :
    (get_tail st n r).1 = 200
      ∧ (get_tail st n r).2.length ≤ TAIL_BUFFER_SIZE
      ∧ (r = true → (get_tail st n r).2 = st.handle_tail_request TAIL_BUFFER_SIZE) := by
  have hm : min n TAIL_BUFFER_SIZE = TAIL_BUFFER_SIZE := Nat.min_eq_right (Nat.le_of_lt h)
  cases r with
  | false => simp [get_tail]
  | true =>
      refine ⟨rfl, ?_, fun _ => by simp [get_tail, hm]⟩
      simp [get_tail, hm, CollectionActor.handle_tail_request]

/-- Claim C4 witness: a request for `n = 11` against the fresh
collector, with the reply received. -/
theorem get_tail_clamps_witness :
    TAIL_BUFFER_SIZE < 11
      ∧ ((get_tail CollectionActor.new 11 true).1 = 200
        ∧ (get_tail CollectionActor.new 11 true).2.length ≤ TAIL_BUFFER_SIZE
        ∧ (true = true → (get_tail CollectionActor.new 11 true).2
            = CollectionActor.new.handle_tail_request TAIL_BUFFER_SIZE)) :=
  ⟨by decide, get_tail_clamps CollectionActor.new 11 true (by decide)⟩

/-! ## Delivery errors (`src/my_async_actors.rs` lines 382-404)

`UniversalActor::handle_symbols_closes_msg` forwards the assembled rows
to the writer actor and then to the collection actor.  Each `send`
returns `Result<(), SendError<_>>` — the typed delivery error — and the
handler unwraps it with `.expect(...)`, which panics the sending task
with the fixed diagnostic message when the target mailbox is closed.
(The string literals below elide the apostrophe of the Rust messages
`"Couldn..t send a message to the ...Actor."`.)  A send is modelled by
whether the target mailbox is closed. -/

/-- The observable fate of the sending task: normal completion, or a
panic with the `.expect` message. -/
inductive HandlerOutcome where
  | ok : HandlerOutcome
  | panicked (msg : String) : HandlerOutcome
deriving DecidableEq, Repr

/-- Embedding of the two send steps of
`UniversalActor::handle_symbols_closes_msg` (my_async_actors.rs lines
382-404): the writer send's `.expect` panics first when the writer
mailbox is closed; otherwise the collection send's `.expect` panics
when the collection mailbox is closed; otherwise the handler returns
normally. -/
def handle_symbols_closes_sends (writer_closed collection_closed : Bool) : HandlerOutcome :=
  if writer_closed then
    .panicked "Could not send a message to the WriterActor."
  else if collection_closed then
    .panicked "Could not send a message to the CollectionActor."
  else .ok

/-- Claim C5 counterexample: with the writer mailbox closed (a dead
downstream actor), the upstream handler does not complete normally — it
panics via `.expect` — so the delivery error is fatal to the producer
task rather than logged. -/
theorem send_to_closed_mailbox_panics :
    handle_symbols_closes_sends true false
        = .panicked "Could not send a message to the WriterActor."
      ∧ handle_symbols_closes_sends true false ≠ .ok := by
  refine ⟨rfl, ?_⟩
  simp [handle_symbols_closes_sends]

/-- Claim C5 (amended): a send to a closed mailbox yields a typed
delivery error (`SendError<_>`, one type per actor-message kind) that
the sending handler unwraps with `.expect`, panicking the upstream
producer task with a fixed diagnostic message; the error is neither
logged nor returned. -/
theorem send_to_closed_mailbox_fatal (w c : Bool) (h : w = true ∨ c = true) :
    ∃ m, handle_symbols_closes_sends w c = .panicked m
      ∧ handle_symbols_closes_sends w c ≠ .ok := by
  cases w with
  | true => exact ⟨_, rfl, by simp [handle_symbols_closes_sends]⟩
  | false =>
      cases c with
      | true => exact ⟨_, rfl, by simp [handle_symbols_closes_sends]⟩
      | false =>
          rcases h with h | h <;> exact absurd h (by simp)

/-- Claim C5 witness: the amended statement at a closed writer mailbox. -/
theorem send_to_closed_mailbox_fatal_witness :
    (true = true ∨ false = true)
      ∧ ∃ m, handle_symbols_closes_sends true false = .panicked m
          ∧ handle_symbols_closes_sends true false ≠ .ok :=
  ⟨Or.inl rfl, send_to_closed_mailbox_fatal true false (Or.inl rfl)⟩

end StockTrading
